import Mathlib

/-!
Verification of the qeditor fixed-point 2D physics core (src/src/qphysics).

The fixed-point scalar type Q64 and the geometry crate (qmath / qgeometry)
are external dependencies of the repository whose sources are not part of
src/; following the spec they are modelled here by exact rationals and by
explicit parameters standing for the external geometric primitives
(rotation action, square root, tessellation, collision predicates).
All definitions that do have sources under src/ are translated from them
directly (qphysics/components.rs and qphysics/systems.rs).
-/

/-- Modelled from the spec: the fixed-point scalar Q64 (qmath, not under src/)
is modelled as an exact rational.  The spec fixes no concrete type bounds, so
the saturating operations are modelled as the exact operations (all claims are
settled at inputs far from any representable-range bound). -/
abbrev Q64 := ℚ

/-- Modelled from the spec: the 2D vector QVec2 over the fixed-point scalar
(qmath, not under src/): an (x, y) pair with componentwise arithmetic. -/
structure QVec2 where
  x : Q64
  y : Q64
deriving DecidableEq

namespace QVec2

/-- Componentwise addition (saturating_add modelled exactly). -/
def add (a b : QVec2) : QVec2 := ⟨a.x + b.x, a.y + b.y⟩

/-- Componentwise subtraction (saturating_sub modelled exactly). -/
def sub (a b : QVec2) : QVec2 := ⟨a.x - b.x, a.y - b.y⟩

/-- Negation of a vector. -/
def neg (a : QVec2) : QVec2 := ⟨-a.x, -a.y⟩

/-- Componentwise product (saturating_mul of two vectors, as used for scaling
a point by a transform scale). -/
def mul (a b : QVec2) : QVec2 := ⟨a.x * b.x, a.y * b.y⟩

/-- Scaling by a scalar (saturating_mul_num modelled exactly). -/
def mulNum (a : QVec2) (k : Q64) : QVec2 := ⟨a.x * k, a.y * k⟩

/-- Dot product of two vectors. -/
def dot (a b : QVec2) : Q64 := a.x * b.x + a.y * b.y

/-- The zero vector. -/
def zero : QVec2 := ⟨0, 0⟩

/-- The perpendicular (90 degree rotation) of a vector, used for edge
normals in the separating-axis test. -/
def perp (a : QVec2) : QVec2 := ⟨-a.y, a.x⟩

end QVec2

/-- From src/src/qphysics/components.rs (QObject): a physics object identity,
a uuid plus an optional ECS entity id (modelled as a natural number). -/
structure QObject where
  uuid : ℕ
  entity : Option ℕ
deriving DecidableEq

/-- From src/src/qphysics/components.rs (impl PartialEq for QObject): equality
compares the uuid fields only; the entity field is ignored. -/
def qobjBEq (a b : QObject) : Bool := a.uuid == b.uuid

/-- From src/src/qphysics/components.rs (impl Hash for QObject): the hasher is
fed exactly the uuid field; this function is the data the hash depends on. -/
def qobjHashInput (o : QObject) : ℕ := o.uuid

/-- An ordered collision pair, as stored in QCollisionPairs (a vector of
(QObject, QObject) tuples) and in the last-frame hash set. -/
abbrev QPair := QObject × QObject

/-- Tuple equality of pairs, componentwise QObject equality (hence uuid
equality), as used by the Rust HashSet of pairs. -/
def pairBEq (p q : QPair) : Bool := qobjBEq p.1 q.1 && qobjBEq p.2 q.2

/-- HashSet.contains for the pair set, modelled on a list carrying the set
elements: membership up to pair (uuid) equality. -/
def pairMemb (p : QPair) (s : List QPair) : Bool := s.any (fun q => pairBEq p q)

/-- HashSet.insert for the pair set: appends the pair unless an equal pair is
already present. -/
def insertPair (p : QPair) (s : List QPair) : List QPair :=
  if pairMemb p s then s else s ++ [p]

/-- From src/src/qphysics/components.rs (QCollisionFlag): trigger flag plus
32-bit collision layer and mask (modelled as naturals, combined with bitwise
and exactly as in the source). -/
structure QCollisionFlag where
  is_trigger : Bool
  collision_layer : ℕ
  collision_mask : ℕ
deriving DecidableEq

namespace QCollisionFlag

/-- From src/src/qphysics/components.rs (QCollisionFlag::can_collide_with):
the symmetric bitwise gate
(self.mask and other.layer) != 0 and (other.mask and self.layer) != 0. -/
def can_collide_with (a b : QCollisionFlag) : Bool :=
  (a.collision_mask &&& b.collision_layer != 0) &&
    (b.collision_mask &&& a.collision_layer != 0)

end QCollisionFlag

/-- From src/src/qphysics/components.rs (QPhysicsBody): mass, restitution and
friction coefficients. -/
structure QPhysicsBody where
  mass : Q64
  restitution : Q64
  friction : Q64
deriving DecidableEq

namespace QPhysicsBody

/-- From src/src/qphysics/components.rs (QPhysicsBody::is_static): a body is
static iff its mass is at most zero (zero denoting infinite mass). -/
def is_static (b : QPhysicsBody) : Bool := decide (b.mass ≤ 0)

/-- From src/src/qphysics/components.rs (QPhysicsBody::inverse_mass): zero for
a static body, otherwise the reciprocal of the mass (saturating_recip
modelled as the exact rational reciprocal). -/
def inverse_mass (b : QPhysicsBody) : Q64 :=
  if b.is_static then 0 else b.mass⁻¹

end QPhysicsBody

/-- From src/src/qphysics/components.rs (QMotion): linear velocity, angular
velocity and linear acceleration. -/
structure QMotion where
  velocity : QVec2
  angular_velocity : Q64
  acceleration : QVec2
deriving DecidableEq

/-- From src/src/qphysics/components.rs (QTransform): position, rotation and
scale.  The rotation is the external qmath QDir type (not under src/);
following the spec it is modelled by its action on vectors, an arbitrary
function from vectors to vectors. -/
structure QTransform where
  position : QVec2
  rotation : QVec2 → QVec2
  scale : QVec2

/-- Modelled from the spec: the qgeometry QLine segment (not under src/), two
endpoints.  The end point is named endp because end is reserved in Lean. -/
structure QLine where
  start : QVec2
  endp : QVec2
deriving DecidableEq

/-- Modelled from the spec: the qgeometry QCircle (not under src/), a center
point and a radius. -/
structure QCircle where
  center : QVec2
  radius : Q64
deriving DecidableEq

/-- Modelled from the spec: the qgeometry QBbox (not under src/), an
axis-aligned box given by its left-bottom and right-top corners. -/
structure QBbox where
  left_bottom : QVec2
  right_top : QVec2
deriving DecidableEq

/-- Modelled from the spec: a qgeometry QPolygon (not under src/) is an
ordered sequence of points. -/
abbrev QPolygon := List QVec2

/-- From src/src/qphysics/components.rs (QCollisionShape): the tagged union
over the five supported shape variants. -/
inductive QCollisionShape where
  | point (p : QVec2)
  | line (l : QLine)
  | circle (c : QCircle)
  | rectangle (r : QBbox)
  | polygon (ps : QPolygon)
deriving DecidableEq

/-- Modelled from the spec: QBbox::get_polygon (qgeometry, not under src/)
lists the four corners of the axis-aligned rectangle. -/
def QBbox.get_polygon (r : QBbox) : QPolygon :=
  [r.left_bottom, ⟨r.right_top.x, r.left_bottom.y⟩, r.right_top,
    ⟨r.left_bottom.x, r.right_top.y⟩]

/-- From src/src/qphysics/components.rs (QCollisionShape::to_polygon): reduce
any shape to a polygon.  The circle tessellation QCircle::get_polygon lives in
the external qgeometry crate (not under src/) and is passed in as the
parameter tess. -/
def QCollisionShape.to_polygon (tess : QCircle → QPolygon) :
    QCollisionShape → QPolygon
  | .point p => [p]
  | .line l => [l.start, l.endp]
  | .circle c => tess c
  | .rectangle r => r.get_polygon
  | .polygon ps => ps

/-- Consecutive edges of a polygon, wrapping around from the last point back
to the first. -/
def polyEdges : QPolygon → List (QVec2 × QVec2)
  | [] => []
  | p :: ps => List.zip (p :: ps) (ps ++ [p])

/-- The outward edge normals of a polygon: the perpendicular of each edge
vector.  These are the candidate separating axes contributed by the
polygon. -/
def polyNormals (ps : QPolygon) : List QVec2 :=
  (polyEdges ps).map (fun e => QVec2.perp (e.2.sub e.1))

/-- Minimum of the projections of a polygon's points onto an axis (0 for the
degenerate empty polygon). -/
def projMin (ax : QVec2) : QPolygon → Q64
  | [] => 0
  | p :: ps => (ps.map (fun q => QVec2.dot ax q)).foldl min (QVec2.dot ax p)

/-- Maximum of the projections of a polygon's points onto an axis (0 for the
degenerate empty polygon). -/
def projMax (ax : QVec2) : QPolygon → Q64
  | [] => 0
  | p :: ps => (ps.map (fun q => QVec2.dot ax q)).foldl max (QVec2.dot ax p)

/-- Whether the projections of two polygons onto an axis are disjoint, i.e.
the axis separates them. -/
def axSeparates (ax : QVec2) (a b : QPolygon) : Bool :=
  decide (projMax ax a < projMin ax b) || decide (projMax ax b < projMin ax a)

/-- Modelled from the spec: QPolygon::is_collide (qgeometry, not under src/),
a separating-axis test over the edge normals of both polygons — the polygons
collide iff no candidate axis separates their projections. -/
def QPolygon.is_collide (a b : QPolygon) : Bool :=
  !((polyNormals a ++ polyNormals b).any (fun ax => axSeparates ax a b))

/-- From src/src/qphysics/components.rs (QCollisionShape::is_collide): reduce
both shapes to polygons and run the one polygon-vs-polygon test. -/
def QCollisionShape.is_collide (tess : QCircle → QPolygon)
    (a b : QCollisionShape) : Bool :=
  QPolygon.is_collide (a.to_polygon tess) (b.to_polygon tess)

/-- From src/src/qphysics/components.rs (QTransform::apply_to): per variant,
every defining point is multiplied componentwise by the scale, then rotated,
then translated by the position.  The circle radius is scaled by the square
root of the product of the absolute scale components and clamped to at least
the fixed-point epsilon; the square root and the epsilon constant belong to
the external qmath crate (not under src/) and are passed in as parameters. -/
def QTransform.apply_to (sqrtFn : Q64 → Q64) (eps : Q64) (t : QTransform) :
    QCollisionShape → QCollisionShape
  | .point p =>
      QCollisionShape.point ((t.rotation (p.mul t.scale)).add t.position)
  | .line l =>
      QCollisionShape.line
        ⟨(t.rotation (l.start.mul t.scale)).add t.position,
          (t.rotation (l.endp.mul t.scale)).add t.position⟩
  | .circle c =>
      let center_pos := (t.rotation (c.center.mul t.scale)).add t.position
      let scale_mag := sqrtFn (|t.scale.x| * |t.scale.y|)
      let radius := c.radius * scale_mag
      let radius := if radius ≤ eps then eps else radius
      QCollisionShape.circle ⟨center_pos, radius⟩
  | .rectangle r =>
      QCollisionShape.rectangle
        ⟨(t.rotation (r.left_bottom.mul t.scale)).add t.position,
          (t.rotation (r.right_top.mul t.scale)).add t.position⟩
  | .polygon ps =>
      QCollisionShape.polygon
        (ps.map (fun p => (t.rotation (p.mul t.scale)).add t.position))

/-- The rotate-then-scale-then-translate transformation of a single point, the
order the specification sentence asserts for QTransform::apply_to. -/
def specRotateFirstPoint (t : QTransform) (p : QVec2) : QVec2 :=
  ((t.rotation p).mul t.scale).add t.position

/-- The specification sentence for QTransform::apply_to with the order of the
first two steps as written there (rotate, then scale, then translate), stated
independently per variant for comparison with the source translation. -/
def applyToRotateFirst (sqrtFn : Q64 → Q64) (eps : Q64) (t : QTransform) :
    QCollisionShape → QCollisionShape
  | .point p => QCollisionShape.point (specRotateFirstPoint t p)
  | .line l =>
      QCollisionShape.line ⟨specRotateFirstPoint t l.start, specRotateFirstPoint t l.endp⟩
  | .circle c =>
      let scale_mag := sqrtFn (|t.scale.x| * |t.scale.y|)
      let radius := c.radius * scale_mag
      let radius := if radius ≤ eps then eps else radius
      QCollisionShape.circle ⟨specRotateFirstPoint t c.center, radius⟩
  | .rectangle r =>
      QCollisionShape.rectangle
        ⟨specRotateFirstPoint t r.left_bottom, specRotateFirstPoint t r.right_top⟩
  | .polygon ps => QCollisionShape.polygon (ps.map (specRotateFirstPoint t))

/-- The scale-then-rotate-then-translate transformation of a single point:
multiply componentwise by the scale, rotate the result, translate by the
position. -/
def specScaleFirstPoint (t : QTransform) (p : QVec2) : QVec2 :=
  (t.rotation (p.mul t.scale)).add t.position

/-- The amended specification of QTransform::apply_to (scale, then rotate,
then translate), stated independently per variant for comparison with the
source translation. -/
def applyToScaleFirst (sqrtFn : Q64 → Q64) (eps : Q64) (t : QTransform) :
    QCollisionShape → QCollisionShape
  | .point p => QCollisionShape.point (specScaleFirstPoint t p)
  | .line l =>
      QCollisionShape.line ⟨specScaleFirstPoint t l.start, specScaleFirstPoint t l.endp⟩
  | .circle c =>
      let scale_mag := sqrtFn (|t.scale.x| * |t.scale.y|)
      let radius := c.radius * scale_mag
      let radius := if radius ≤ eps then eps else radius
      QCollisionShape.circle ⟨specScaleFirstPoint t c.center, radius⟩
  | .rectangle r =>
      QCollisionShape.rectangle
        ⟨specScaleFirstPoint t r.left_bottom, specScaleFirstPoint t r.right_top⟩
  | .polygon ps => QCollisionShape.polygon (ps.map (specScaleFirstPoint t))

/-- The outcome of resolving one collision pair: the two motions and the two
transforms after the step. -/
structure ResolveOut where
  motA : QMotion
  motB : QMotion
  trA : QTransform
  trB : QTransform

/-- From src/src/qphysics/systems.rs (collision_resolution_qsystem, per-pair
body, lines 147-191): positional correction followed by the impulse.  The
separation vector is computed by the external qgeometry crate (not under
src/) and is passed in as the parameter sep.  The external length, unit
direction and projection primitives are combined into exact rational
arithmetic: the length is zero iff the vector is zero (the squared length is
tested), vel_along_normal = (relVel . v) / len shares its sign with
relVel . v, and the impulse vector
(v / len) * (-(e + 1) * vel_along_normal / invMassSum)
equals v * (-(e + 1) * (relVel . v) / (v . v)) / invMassSum. -/
def resolvePair (sep : Option QVec2) (bodyA bodyB : QPhysicsBody)
    (mA mB : QMotion) (tA tB : QTransform) : ResolveOut :=
  match sep with
  | none => ⟨mA, mB, tA, tB⟩
  | some v =>
    -- Apply separation vector.
    let mass_sum := bodyA.mass + bodyB.mass
    let tA1 := if mass_sum ≠ 0 then
        { tA with position := tA.position.add ((v.mulNum (bodyA.mass / mass_sum)).neg) }
      else tA
    let tB1 := if mass_sum ≠ 0 then
        { tB with position := tB.position.add (v.mulNum (bodyB.mass / mass_sum)) }
      else tB
    -- Apply impulse.
    let relative_velocity := mA.velocity.sub mB.velocity
    if QVec2.dot v v = 0 then ⟨mA, mB, tA1, tB1⟩
    else
      let d := QVec2.dot relative_velocity v
      if d < 0 then ⟨mA, mB, tA1, tB1⟩
      else
        let restitution := (bodyA.restitution + bodyB.restitution) / 2
        let inv_mass_a := bodyA.inverse_mass
        let inv_mass_b := bodyB.inverse_mass
        let inv_mass_sum := inv_mass_a + inv_mass_b
        if inv_mass_sum = 0 then ⟨mA, mB, tA1, tB1⟩
        else
          let impulse_scalar := (-(restitution + 1) * (d / QVec2.dot v v)) / inv_mass_sum
          let impulse := v.mulNum impulse_scalar
          ⟨{ mA with velocity := mA.velocity.add (impulse.mulNum inv_mass_a) },
            { mB with velocity := mB.velocity.sub (impulse.mulNum inv_mass_b) },
            tA1, tB1⟩

/-- An entry of the broad/narrow-phase ECS query: the object identity together
with its collision flag.  The shape and transform components only feed the
external geometric predicates, which are passed to the phases as parameters
keyed by the entries. -/
structure Entry where
  obj : QObject
  flag : QCollisionFlag
deriving DecidableEq

/-- Bevy Query::get by entity id, modelled as a lookup of the first world
entry carrying that entity id. -/
def lookupEntry (w : List Entry) (e : ℕ) : Option Entry :=
  w.find? (fun en => en.obj.entity == some e)

/-- Lookup of the world entry referenced by a QObject.  The source calls
entity.unwrap(); the pipeline runs after update_qobject_qsysytem has set
every entity field, and the none branch is unreachable there. -/
def lookupByObj (w : List Entry) (o : QObject) : Option Entry :=
  match o.entity with
  | none => none
  | some e => lookupEntry w e

/-- All index-ordered pairs of query results, as produced by the nested
i < j loops of the broad phase. -/
def entryPairs : List Entry → List (Entry × Entry)
  | [] => []
  | x :: xs => xs.map (fun y => (x, y)) ++ entryPairs xs

/-- From src/src/qphysics/systems.rs (broad_phase_qsystem): inserts the
current pairs into the last-frame snapshot set (which is never cleared),
clears the pair vector, and rebuilds it with every index-ordered entry pair
that passes the collision-flag gate and whose world-space bounding boxes
overlap.  The bounding-box overlap predicate is computed by the external
qgeometry crate (not under src/) and is passed in as bboxHit.  Returns the
new pair vector and the new last-frame set. -/
def broadPhase (bboxHit : Entry → Entry → Bool) (w : List Entry)
    (pairs lastSet : List QPair) : List QPair × List QPair :=
  let lastSet1 := pairs.foldl (fun s p => insertPair p s) lastSet
  let pairs1 := (entryPairs w).filterMap (fun pq =>
    if pq.1.flag.can_collide_with pq.2.flag && bboxHit pq.1 pq.2 then
      some (pq.1.obj, pq.2.obj)
    else none)
  (pairs1, lastSet1)

/-- The classification events emitted by the narrow phase, mirroring
QCollisionEvent (Started / Ongoing / Ended) and QTriggerEvent
(Enter / Stay / Exit) from src/src/qphysics/messages.rs. -/
inductive QEvent where
  | started (a b : QObject)
  | ongoing (a b : QObject)
  | ended (a b : QObject)
  | triggerEnter (a b : QObject)
  | triggerStay (a b : QObject)
  | triggerLeave (a b : QObject)
deriving DecidableEq

/-- From src/src/qphysics/systems.rs (narrow_phase_qsystem): retains the pairs
whose looked-up world-space shapes still collide exactly (dropping pairs whose
entity lookups fail), then emits one classification event per retained pair —
Started (or trigger Enter) when the pair is contained in the last-frame set
and Ongoing (or trigger Stay) otherwise — and finally one Ended (or trigger
Exit) event for every last-frame pair absent from the retained set whose
lookups still succeed.  The exact collision predicate is computed by the
external qgeometry crate (not under src/) and is passed in as exactHit.
Returns the retained pairs and the emitted events; the last-frame set is not
modified by this phase. -/
def narrowPhase (exactHit : Entry → Entry → Bool) (w : List Entry)
    (pairs lastSet : List QPair) : List QPair × List QEvent :=
  let pairs1 := pairs.filter (fun p =>
    match lookupByObj w p.1, lookupByObj w p.2 with
    | some ea, some eb => exactHit ea eb
    | _, _ => false)
  let collideEvts := pairs1.filterMap (fun p =>
    match lookupByObj w p.1, lookupByObj w p.2 with
    | some ea, some eb =>
      if pairMemb p lastSet then
        some (if ea.flag.is_trigger || eb.flag.is_trigger then
          QEvent.triggerEnter p.1 p.2 else QEvent.started p.1 p.2)
      else
        some (if ea.flag.is_trigger || eb.flag.is_trigger then
          QEvent.triggerStay p.1 p.2 else QEvent.ongoing p.1 p.2)
    | _, _ => none)
  let thisSet := pairs1.foldl (fun s p => insertPair p s) []
  let exitEvts := lastSet.filterMap (fun p =>
    if !pairMemb p thisSet then
      match lookupByObj w p.1, lookupByObj w p.2 with
      | some ea, some eb =>
        some (if ea.flag.is_trigger || eb.flag.is_trigger then
          QEvent.triggerLeave p.1 p.2 else QEvent.ended p.1 p.2)
      | _, _ => none
    else none)
  (pairs1, collideEvts ++ exitEvts)

/-- One detection tick: broad phase followed by narrow phase, threading the
pair vector and the last-frame snapshot set, returning the new state together
with the events the narrow phase emitted. -/
def detectTick (bboxHit exactHit : Entry → Entry → Bool) (w : List Entry)
    (st : List QPair × List QPair) : (List QPair × List QPair) × List QEvent :=
  let st1 := broadPhase bboxHit w st.1 st.2
  let nr := narrowPhase exactHit w st1.1 st1.2
  ((nr.1, st1.2), nr.2)

/-! ## Helper lemmas -/

theorem axSeparates_symm (ax : QVec2) (a b : QPolygon) :
    axSeparates ax a b = axSeparates ax b a := by
  simp [axSeparates, Bool.or_comm]

theorem poly_collide_symm (a b : QPolygon) :
    QPolygon.is_collide a b = QPolygon.is_collide b a := by
  unfold QPolygon.is_collide
  have h : (fun ax => axSeparates ax a b) = (fun ax => axSeparates ax b a) :=
    funext fun ax => axSeparates_symm ax a b
  rw [List.any_append, List.any_append, h, Bool.or_comm]

/-! ## Claims -/

/-- C8: for every pair of CollisionShape values A and B of any of the five
supported variants, A.is_collide(B) equals B.is_collide(A), for any circle
tessellation supplied by the external geometry crate. -/
theorem is_collide_symm (tess : QCircle → QPolygon) (a b : QCollisionShape) :
    QCollisionShape.is_collide tess a b = QCollisionShape.is_collide tess b a :=
  poly_collide_symm (a.to_polygon tess) (b.to_polygon tess)

/-- C9 counterexample: with a 90 degree rotation (the perpendicular map), a
non-uniform scale (2, 1) and zero translation, applying the transform to the
one-point polygon (1, 0) yields (0, 2) — scale first, then rotate — while the
claimed rotate-then-scale-then-translate order yields (0, 1); the two results
differ, so apply_to does not rotate first. -/
theorem apply_to_order_counterexample :
    QTransform.apply_to (fun q => q) 0 ⟨⟨0, 0⟩, QVec2.perp, ⟨2, 1⟩⟩
        (QCollisionShape.polygon [⟨1, 0⟩]) ≠
      applyToRotateFirst (fun q => q) 0 ⟨⟨0, 0⟩, QVec2.perp, ⟨2, 1⟩⟩
        (QCollisionShape.polygon [⟨1, 0⟩]) := by
  simp [QTransform.apply_to, applyToRotateFirst, specRotateFirstPoint,
    QVec2.mul, QVec2.add, QVec2.perp]

/-- C9 amended: for every transform and every CollisionShape variant, apply_to
returns a new shape in which each defining point (and circle center) is first
multiplied by the scale, then rotated by the transform's rotation, then
translated by the position — scale, then rotate, then translate — the circle
radius being scaled by the square root of the product of the absolute scale
components (clamped below by the epsilon); the input shape and transform are
not mutated (the function is pure by construction). -/
theorem apply_to_is_scale_then_rotate_then_translate (sqrtFn : Q64 → Q64)
    (eps : Q64) (t : QTransform) (s : QCollisionShape) :
    QTransform.apply_to sqrtFn eps t s = applyToScaleFirst sqrtFn eps t s := by
  cases s <;> rfl

/-- C10: equality of QObject compares only the uuid fields, hashing feeds only
the uuid, and membership of a pair in a pair set (as used for the collision
pair vector and the last-frame snapshot) is determined solely by the two
uuids, the entity fields being ignored. -/
theorem qobject_identity_by_uuid (a b : QObject) :
    (qobjBEq a b = true ↔ a.uuid = b.uuid) ∧
    (a.uuid = b.uuid → qobjHashInput a = qobjHashInput b) ∧
    (∀ a2 b2 : QObject, ∀ s : List QPair, a.uuid = a2.uuid → b.uuid = b2.uuid →
      pairMemb (a, b) s = pairMemb (a2, b2) s) := by
  refine ⟨by simp [qobjBEq], fun h => by simp [qobjHashInput, h], ?_⟩
  intro a2 b2 s h1 h2
  simp [pairMemb, pairBEq, qobjBEq, h1, h2]

/-- C10 witness: two pairs sharing uuids (5, 7) but with different entity
fields have the same membership verdict in a concrete pair set. -/
theorem qobject_identity_by_uuid_witness :
    pairMemb (⟨5, none⟩, ⟨7, some 3⟩) [(⟨5, some 9⟩, ⟨7, none⟩)] =
      pairMemb (⟨5, some 1⟩, ⟨7, some 2⟩) [(⟨5, some 9⟩, ⟨7, none⟩)] :=
  (qobject_identity_by_uuid ⟨5, none⟩ ⟨7, some 3⟩).2.2 ⟨5, some 1⟩ ⟨7, some 2⟩
    [(⟨5, some 9⟩, ⟨7, none⟩)] rfl rfl

/-- C7: the impulse is skipped, leaving both velocities unchanged, whenever
the separation vector has zero magnitude (zero squared length), the relative
velocity projected on the separation normal is negative (equivalently its dot
product with the separation vector is negative), or the sum of the inverse
masses is zero; each case is an ordinary branch, not an error. -/
theorem impulse_skip (v : QVec2) (bodyA bodyB : QPhysicsBody) (mA mB : QMotion)
    (tA tB : QTransform)
    (h : QVec2.dot v v = 0 ∨ QVec2.dot (mA.velocity.sub mB.velocity) v < 0 ∨
      bodyA.inverse_mass + bodyB.inverse_mass = 0) :
    (resolvePair (some v) bodyA bodyB mA mB tA tB).motA.velocity = mA.velocity ∧
    (resolvePair (some v) bodyA bodyB mA mB tA tB).motB.velocity = mB.velocity := by
  simp only [resolvePair]
  repeat' split
  all_goals first
  | exact ⟨rfl, rfl⟩
  | (rcases h with h | h | h <;> simp_all)

/-- C7 witness: with separation vector (1, 0) and the bodies already
separating (relative velocity (-1, 0), dot product -1 < 0), the resolution
step leaves both velocities unchanged. -/
theorem impulse_skip_witness :
    (QVec2.dot ((QVec2.mk (-1) 0).sub ⟨0, 0⟩) ⟨1, 0⟩ < 0) ∧
    ((resolvePair (some ⟨1, 0⟩) ⟨1, 0, 0⟩ ⟨1, 0, 0⟩ ⟨⟨-1, 0⟩, 0, ⟨0, 0⟩⟩
        ⟨⟨0, 0⟩, 0, ⟨0, 0⟩⟩ ⟨⟨0, 0⟩, fun p => p, ⟨1, 1⟩⟩
        ⟨⟨0, 0⟩, fun p => p, ⟨1, 1⟩⟩).motA.velocity = QVec2.mk (-1) 0 ∧
      (resolvePair (some ⟨1, 0⟩) ⟨1, 0, 0⟩ ⟨1, 0, 0⟩ ⟨⟨-1, 0⟩, 0, ⟨0, 0⟩⟩
        ⟨⟨0, 0⟩, 0, ⟨0, 0⟩⟩ ⟨⟨0, 0⟩, fun p => p, ⟨1, 1⟩⟩
        ⟨⟨0, 0⟩, fun p => p, ⟨1, 1⟩⟩).motB.velocity = QVec2.mk 0 0) :=
  ⟨by norm_num [QVec2.dot, QVec2.sub],
    impulse_skip ⟨1, 0⟩ ⟨1, 0, 0⟩ ⟨1, 0, 0⟩ ⟨⟨-1, 0⟩, 0, ⟨0, 0⟩⟩
      ⟨⟨0, 0⟩, 0, ⟨0, 0⟩⟩ ⟨⟨0, 0⟩, fun p => p, ⟨1, 1⟩⟩
      ⟨⟨0, 0⟩, fun p => p, ⟨1, 1⟩⟩
      (Or.inr (Or.inl (by norm_num [QVec2.dot, QVec2.sub])))⟩

/-- C4 counterexample: with body masses 1 and 3 and separation vector (4, 0),
the claimed correction (each body displaced by the separation vector scaled by
the OTHER body's mass over the mass sum) predicts positions (-3, 0) and
(1, 0), but the code produces (-1, 0) and (3, 0): the claim is false at this
input. -/
theorem positional_correction_other_mass_counterexample :
    ¬ ((resolvePair (some ⟨4, 0⟩) ⟨1, 0, 0⟩ ⟨3, 0, 0⟩ ⟨⟨0, 0⟩, 0, ⟨0, 0⟩⟩
          ⟨⟨0, 0⟩, 0, ⟨0, 0⟩⟩ ⟨⟨0, 0⟩, fun p => p, ⟨1, 1⟩⟩
          ⟨⟨0, 0⟩, fun p => p, ⟨1, 1⟩⟩).trA.position
        = (QVec2.mk 0 0).add (((QVec2.mk 4 0).mulNum ((3 : ℚ) / (1 + 3))).neg) ∧
      (resolvePair (some ⟨4, 0⟩) ⟨1, 0, 0⟩ ⟨3, 0, 0⟩ ⟨⟨0, 0⟩, 0, ⟨0, 0⟩⟩
          ⟨⟨0, 0⟩, 0, ⟨0, 0⟩⟩ ⟨⟨0, 0⟩, fun p => p, ⟨1, 1⟩⟩
          ⟨⟨0, 0⟩, fun p => p, ⟨1, 1⟩⟩).trB.position
        = (QVec2.mk 0 0).add ((QVec2.mk 4 0).mulNum ((1 : ℚ) / (1 + 3)))) := by
  intro hcl
  have h1 := hcl.1
  norm_num [resolvePair, QPhysicsBody.inverse_mass, QPhysicsBody.is_static,
    QVec2.add, QVec2.sub, QVec2.neg, QVec2.mulNum, QVec2.dot] at h1

/-- C4 amended: when a separation vector exists and the mass sum is nonzero,
the positional correction applied to each body is the separation vector scaled
by that body's OWN mass divided by the mass sum (so the heavier body moves
more), with body A displaced opposite to body B; when the mass sum is zero,
neither position changes. -/
theorem positional_correction_own_mass (v : QVec2) (bodyA bodyB : QPhysicsBody)
    (mA mB : QMotion) (tA tB : QTransform) :
    (bodyA.mass + bodyB.mass ≠ 0 →
      (resolvePair (some v) bodyA bodyB mA mB tA tB).trA.position
          = tA.position.add ((v.mulNum (bodyA.mass / (bodyA.mass + bodyB.mass))).neg) ∧
        (resolvePair (some v) bodyA bodyB mA mB tA tB).trB.position
          = tB.position.add (v.mulNum (bodyB.mass / (bodyA.mass + bodyB.mass)))) ∧
    (bodyA.mass + bodyB.mass = 0 →
      (resolvePair (some v) bodyA bodyB mA mB tA tB).trA.position = tA.position ∧
      (resolvePair (some v) bodyA bodyB mA mB tA tB).trB.position = tB.position) := by
  constructor <;> intro h <;>
    (simp only [resolvePair]; repeat' split) <;> simp_all

/-- C4 amended witness: with masses 1 and 3 and separation vector (4, 0) the
mass sum is nonzero and the code's corrected positions are those scaled by
each body's own mass share, (-1, 0) and (3, 0). -/
theorem positional_correction_own_mass_witness :
    ((1 : ℚ) + 3 ≠ 0) ∧
    ((resolvePair (some ⟨4, 0⟩) ⟨1, 0, 0⟩ ⟨3, 0, 0⟩ ⟨⟨0, 0⟩, 0, ⟨0, 0⟩⟩
        ⟨⟨0, 0⟩, 0, ⟨0, 0⟩⟩ ⟨⟨0, 0⟩, fun p => p, ⟨1, 1⟩⟩
        ⟨⟨0, 0⟩, fun p => p, ⟨1, 1⟩⟩).trA.position
      = (QVec2.mk 0 0).add (((QVec2.mk 4 0).mulNum ((1 : ℚ) / ((1 : ℚ) + 3))).neg) ∧
    (resolvePair (some ⟨4, 0⟩) ⟨1, 0, 0⟩ ⟨3, 0, 0⟩ ⟨⟨0, 0⟩, 0, ⟨0, 0⟩⟩
        ⟨⟨0, 0⟩, 0, ⟨0, 0⟩⟩ ⟨⟨0, 0⟩, fun p => p, ⟨1, 1⟩⟩
        ⟨⟨0, 0⟩, fun p => p, ⟨1, 1⟩⟩).trB.position
      = (QVec2.mk 0 0).add ((QVec2.mk 4 0).mulNum ((3 : ℚ) / ((1 : ℚ) + 3)))) :=
  ⟨by norm_num,
    (positional_correction_own_mass ⟨4, 0⟩ ⟨1, 0, 0⟩ ⟨3, 0, 0⟩ ⟨⟨0, 0⟩, 0, ⟨0, 0⟩⟩
      ⟨⟨0, 0⟩, 0, ⟨0, 0⟩⟩ ⟨⟨0, 0⟩, fun p => p, ⟨1, 1⟩⟩
      ⟨⟨0, 0⟩, fun p => p, ⟨1, 1⟩⟩).1 (by norm_num)⟩

/-- C5 failing input: a body of mass -1 is classified static (mass at most
zero), yet one resolution step against a mass-3 body with separation vector
(4, 0) moves its position from the origin to (2, 0): the code moves a static
body, contradicting its own infinite-mass documentation and the claim. -/
theorem static_negative_mass_body_moves :
    (QPhysicsBody.mk (-1) 0 0).is_static = true ∧
    (resolvePair (some ⟨4, 0⟩) ⟨-1, 0, 0⟩ ⟨3, 0, 0⟩ ⟨⟨0, 0⟩, 0, ⟨0, 0⟩⟩
        ⟨⟨0, 0⟩, 0, ⟨0, 0⟩⟩ ⟨⟨0, 0⟩, fun p => p, ⟨1, 1⟩⟩
        ⟨⟨0, 0⟩, fun p => p, ⟨1, 1⟩⟩).trA.position = ⟨2, 0⟩ ∧
    QVec2.mk 2 0 ≠ QVec2.mk 0 0 := by
  refine ⟨by norm_num [QPhysicsBody.is_static], ?_, by norm_num⟩
  norm_num [resolvePair, QPhysicsBody.inverse_mass, QPhysicsBody.is_static,
    QVec2.add, QVec2.sub, QVec2.neg, QVec2.mulNum, QVec2.dot]

/-- C3 failing input: a colliding pair whose first flag is a trigger is
retained by the narrow phase in the collision-pair vector, and the resolution
step (which never consults the flags) then changes the first body's position
and velocity: trigger pairs are not exempt from physical resolution. -/
theorem trigger_pair_physically_resolved :
    (QCollisionFlag.mk true 1 4294967295).is_trigger = true ∧
    (narrowPhase (fun _ _ => true)
        [⟨⟨1, some 0⟩, ⟨true, 1, 4294967295⟩⟩, ⟨⟨2, some 1⟩, ⟨false, 1, 4294967295⟩⟩]
        [(⟨1, some 0⟩, ⟨2, some 1⟩)] []).1 = [(⟨1, some 0⟩, ⟨2, some 1⟩)] ∧
    (resolvePair (some ⟨1, 0⟩) ⟨1, 0, 0⟩ ⟨1, 0, 0⟩ ⟨⟨1, 0⟩, 0, ⟨0, 0⟩⟩
        ⟨⟨-1, 0⟩, 0, ⟨0, 0⟩⟩ ⟨⟨0, 0⟩, fun p => p, ⟨1, 1⟩⟩
        ⟨⟨0, 0⟩, fun p => p, ⟨1, 1⟩⟩).trA.position ≠ QVec2.mk 0 0 ∧
    (resolvePair (some ⟨1, 0⟩) ⟨1, 0, 0⟩ ⟨1, 0, 0⟩ ⟨⟨1, 0⟩, 0, ⟨0, 0⟩⟩
        ⟨⟨-1, 0⟩, 0, ⟨0, 0⟩⟩ ⟨⟨0, 0⟩, fun p => p, ⟨1, 1⟩⟩
        ⟨⟨0, 0⟩, fun p => p, ⟨1, 1⟩⟩).motA.velocity ≠ QVec2.mk 1 0 := by
  refine ⟨rfl, by decide, ?_, ?_⟩ <;>
    norm_num [resolvePair, QPhysicsBody.inverse_mass, QPhysicsBody.is_static,
      QVec2.add, QVec2.sub, QVec2.neg, QVec2.mulNum, QVec2.dot]

/-- C1 failing input: a pair colliding this frame that is PRESENT in the
last-frame snapshot set receives a Started event from the narrow phase (the
source emits Started when the set contains the pair and Ongoing when it does
not, the reverse of the claim and of the event documentation). -/
theorem started_emitted_for_persisting_pair :
    pairMemb (⟨1, some 0⟩, ⟨2, some 1⟩) [(⟨1, some 0⟩, ⟨2, some 1⟩)] = true ∧
    (narrowPhase (fun _ _ => true)
        [⟨⟨1, some 0⟩, ⟨false, 1, 4294967295⟩⟩, ⟨⟨2, some 1⟩, ⟨false, 1, 4294967295⟩⟩]
        [(⟨1, some 0⟩, ⟨2, some 1⟩)] [(⟨1, some 0⟩, ⟨2, some 1⟩)]).2
      = [QEvent.started ⟨1, some 0⟩ ⟨2, some 1⟩] := by
  decide

/-- The two-object world used for the exit-event trace: both objects on layer
1 with mask 1, non-trigger. -/
def eventWorld : List Entry :=
  [⟨⟨1, some 0⟩, ⟨false, 1, 1⟩⟩, ⟨⟨2, some 1⟩, ⟨false, 1, 1⟩⟩]

/-- Frame N of the exit-event trace: the two objects collide (both the
bounding-box and the exact predicates hold). -/
def collideTick : (List QPair × List QPair) × List QEvent :=
  detectTick (fun _ _ => true) (fun _ _ => true) eventWorld ([], [])

/-- Frame N+1 of the exit-event trace: the objects no longer collide. -/
def separatedTick1 : (List QPair × List QPair) × List QEvent :=
  detectTick (fun _ _ => false) (fun _ _ => false) eventWorld collideTick.1

/-- Frame N+2 of the exit-event trace: the objects still do not collide. -/
def separatedTick2 : (List QPair × List QPair) × List QEvent :=
  detectTick (fun _ _ => false) (fun _ _ => false) eventWorld separatedTick1.1

/-- C2 failing input: the pair collides at frame N and is separated from
frame N+1 on; the code emits an Ended event at frame N+1 AND another Ended
event at frame N+2 (the last-frame snapshot set is never cleared, so every
later frame keeps diffing against the accumulated pair), contradicting the
claimed exactly-one Exit/Ended transition. -/
theorem exit_event_fires_every_frame :
    collideTick.1.1 = [(⟨1, some 0⟩, ⟨2, some 1⟩)] ∧
    separatedTick1.2 = [QEvent.ended ⟨1, some 0⟩ ⟨2, some 1⟩] ∧
    separatedTick2.2 = [QEvent.ended ⟨1, some 0⟩ ⟨2, some 1⟩] := by
  decide

theorem can_collide_with_symm (a b : QCollisionFlag) :
    a.can_collide_with b = b.can_collide_with a := by
  simp [QCollisionFlag.can_collide_with, Bool.and_comm]

theorem mem_entryPairs {w : List Entry} {q : Entry × Entry}
    (hq : q ∈ entryPairs w) : q.1 ∈ w ∧ q.2 ∈ w := by
  induction w with
  | nil => simp [entryPairs] at hq
  | cons x xs ih =>
    simp only [entryPairs, List.mem_append, List.mem_map] at hq
    rcases hq with ⟨y, hy, rfl⟩ | hq
    · exact ⟨List.mem_cons_self x xs, List.mem_cons_of_mem x hy⟩
    · rcases ih hq with ⟨h1, h2⟩
      exact ⟨List.mem_cons_of_mem x h1, List.mem_cons_of_mem x h2⟩

theorem broadPairs_sound {bboxHit : Entry → Entry → Bool} {w : List Entry}
    {pairs lastSet : List QPair} {p : QPair}
    (hp : p ∈ (broadPhase bboxHit w pairs lastSet).1) :
    ∃ q : Entry × Entry, q ∈ entryPairs w ∧
      q.1.flag.can_collide_with q.2.flag = true ∧ p = (q.1.obj, q.2.obj) := by
  simp only [broadPhase, List.mem_filterMap] at hp
  rcases hp with ⟨q, hq, hsome⟩
  by_cases hc : (q.1.flag.can_collide_with q.2.flag && bboxHit q.1 q.2) = true
  · rw [if_pos hc] at hsome
    injection hsome with h
    exact ⟨q, hq, ((Bool.and_eq_true _ _).mp hc).1, h.symm⟩
  · rw [if_neg hc] at hsome
    cases hsome

/-- C6: a pair of objects whose collision flags fail the symmetric bitwise
gate never appears (in either orientation) in the candidate pair set built by
the broad phase, regardless of the bounding-box overlap predicate, provided
the world's object uuids are distinct (each object is carried by one query
entry). -/
theorem broad_phase_layer_gate (bboxHit : Entry → Entry → Bool) (w : List Entry)
    (pairs lastSet : List QPair) (ea eb : Entry)
    (hnd : (w.map (fun en => en.obj.uuid)).Nodup)
    (ha : ea ∈ w) (hb : eb ∈ w)
    (hgate : ea.flag.can_collide_with eb.flag = false) :
    pairMemb (ea.obj, eb.obj) (broadPhase bboxHit w pairs lastSet).1 = false ∧
    pairMemb (eb.obj, ea.obj) (broadPhase bboxHit w pairs lastSet).1 = false := by
  have inj : ∀ x ∈ w, ∀ y ∈ w, x.obj.uuid = y.obj.uuid → x = y :=
    fun x hx y hy hxy => List.inj_on_of_nodup_map hnd hx hy hxy
  constructor
  · rw [Bool.eq_false_iff]
    intro hmem
    rw [pairMemb, List.any_eq_true] at hmem
    rcases hmem with ⟨r, hr, hbeq⟩
    rcases broadPairs_sound hr with ⟨q, hq, hcc, rfl⟩
    rcases mem_entryPairs hq with ⟨h1, h2⟩
    simp only [pairBEq, qobjBEq, Bool.and_eq_true, beq_iff_eq] at hbeq
    have e1 : ea = q.1 := inj ea ha q.1 h1 hbeq.1
    have e2 : eb = q.2 := inj eb hb q.2 h2 hbeq.2
    rw [← e1, ← e2] at hcc
    rw [hgate] at hcc
    cases hcc
  · rw [Bool.eq_false_iff]
    intro hmem
    rw [pairMemb, List.any_eq_true] at hmem
    rcases hmem with ⟨r, hr, hbeq⟩
    rcases broadPairs_sound hr with ⟨q, hq, hcc, rfl⟩
    rcases mem_entryPairs hq with ⟨h1, h2⟩
    simp only [pairBEq, qobjBEq, Bool.and_eq_true, beq_iff_eq] at hbeq
    have e1 : eb = q.1 := inj eb hb q.1 h1 hbeq.1
    have e2 : ea = q.2 := inj ea ha q.2 h2 hbeq.2
    rw [← e1, ← e2, can_collide_with_symm] at hcc
    rw [hgate] at hcc
    cases hcc

/-- C6 witness: two objects on layer 1 whose masks are 2 fail the gate
(2 and 1 share no bit), and with an always-true bounding-box predicate the
broad phase emits neither orientation of their pair. -/
theorem broad_phase_layer_gate_witness :
    ((([⟨⟨1, some 0⟩, ⟨false, 1, 2⟩⟩, ⟨⟨2, some 1⟩, ⟨false, 1, 2⟩⟩] : List Entry).map
        (fun en => en.obj.uuid)).Nodup) ∧
    (QCollisionFlag.mk false 1 2).can_collide_with ⟨false, 1, 2⟩ = false ∧
    (pairMemb (⟨1, some 0⟩, ⟨2, some 1⟩)
        (broadPhase (fun _ _ => true)
          [⟨⟨1, some 0⟩, ⟨false, 1, 2⟩⟩, ⟨⟨2, some 1⟩, ⟨false, 1, 2⟩⟩] [] []).1 = false ∧
      pairMemb (⟨2, some 1⟩, ⟨1, some 0⟩)
        (broadPhase (fun _ _ => true)
          [⟨⟨1, some 0⟩, ⟨false, 1, 2⟩⟩, ⟨⟨2, some 1⟩, ⟨false, 1, 2⟩⟩] [] []).1 = false) :=
  ⟨by decide, by decide,
    broad_phase_layer_gate (fun _ _ => true)
      [⟨⟨1, some 0⟩, ⟨false, 1, 2⟩⟩, ⟨⟨2, some 1⟩, ⟨false, 1, 2⟩⟩] [] []
      ⟨⟨1, some 0⟩, ⟨false, 1, 2⟩⟩ ⟨⟨2, some 1⟩, ⟨false, 1, 2⟩⟩
      (by decide) (by decide) (by decide) (by decide)⟩
